import Mathlib

/-!
# Verification of the clinic-flow appointment scheduling client

Shallow embedding of the pure logic of the clinic-flow repository:
the time-slot generator and validation schema of
`src/components/AppointmentForm.tsx`, the patient validation schema of
`src/components/PatientForm.tsx`, the fetch wrapper and update payload of
the two service variants (`src/services/api.ts` and the localhost
variant), and the search / pagination / delete handlers of the
Appointments and Patients page components.
-/

namespace ClinicFlow

/-! ## Slot generator (`src/components/AppointmentForm.tsx`, `generateTimeSlots`) -/

/-- `n.toString().padStart(2, '0')` for a decimal-printed natural number. -/
def padStart2 (n : Nat) : String :=
  let s := toString n
  if s.length < 2 then "0" ++ s else s

/-- Embedding of `generateTimeSlots`: for each hour 9..18, minutes 0,5,...,55,
with the inner loop broken off at `hour === 18 && minute > 0`, emitting
zero-padded `"HH:MM"` strings.  The `break` is modelled by `takeWhile`:
the inner loop pushes values exactly until the break condition first holds. -/
def generateTimeSlots : List String :=
  ((List.range 10).map (fun i => i + 9)).flatMap (fun hour =>
    (((List.range 12).map (fun i => i * 5)).takeWhile
        (fun minute => !(hour == 18 && minute > 0))).map
      (fun minute => padStart2 hour ++ ":" ++ padStart2 minute))

/-- Decimal value of an ASCII digit character. -/
def digitVal (c : Char) : Nat := c.toNat - 48

/-- Number of minutes since midnight denoted by an `"HH:MM"` string
(used only to state properties of the generated slots). -/
def slotToMinutes (s : String) : Nat :=
  match s.toList with
  | [h1, h2, _, m1, m2] =>
      (digitVal h1 * 10 + digitVal h2) * 60 + (digitVal m1 * 10 + digitVal m2)
  | _ => 0

/-! ## Pagination (Appointments page `paginatedAppointments` /
Patients page `paginatedPatients`; both use `ITEMS_PER_PAGE = 50` and
`slice(start, start + ITEMS_PER_PAGE)` with `start = (currentPage - 1) * ITEMS_PER_PAGE`). -/

def ITEMS_PER_PAGE : Nat := 50

/-- `filtered.slice(start, start + ITEMS_PER_PAGE)` with
`start = (page - 1) * ITEMS_PER_PAGE`; `Array.prototype.slice` clamps to the
array bounds, which `drop`/`take` model exactly. -/
def paginate {α : Type} (l : List α) (page : Nat) : List α :=
  (l.drop ((page - 1) * ITEMS_PER_PAGE)).take ITEMS_PER_PAGE

/-- `Math.ceil(length / ITEMS_PER_PAGE)` on natural numbers. -/
def totalPages (n : Nat) : Nat :=
  (n + ITEMS_PER_PAGE - 1) / ITEMS_PER_PAGE

/-! ## Appointment validator (`src/components/AppointmentForm.tsx`,
`appointmentSchema`) -/

/-- A candidate appointment form payload (the fields validated by
`appointmentSchema`).  `z.number()` values are modelled as integers, which
covers every value the form widgets produce (`patient?.id || 0`,
`parseInt`); `status` is optional. -/
structure AppointmentPayload where
  patient_id : Int
  doctor_id : Int
  appointment_date : String
  appointment_time : String
  reason : String
  status : Option String
deriving DecidableEq

/-- The UI status options (`const statuses = [...]` in
`AppointmentForm.tsx`). -/
def statuses : List String := ["Scheduled", "Completed", "Cancelled", "No Show"]

/-- Embedding of `appointmentSchema`: `patient_id` and `doctor_id` are
`z.number().min(1)`, the date / time strings are `z.string().min(1)`,
`reason` is `z.string().min(3).max(500)`, and `status` is
`z.string().optional()` — the schema places no constraint at all on the
status value, so the function does not inspect it. -/
def appointmentSchema (p : AppointmentPayload) : Bool :=
  decide (1 ≤ p.patient_id)
  && decide (1 ≤ p.doctor_id)
  && decide (1 ≤ p.appointment_date.length)
  && decide (1 ≤ p.appointment_time.length)
  && (decide (3 ≤ p.reason.length) && decide (p.reason.length ≤ 500))

/-! ## Patient validator (`src/components/PatientForm.tsx`, `patientSchema`) -/

/-- A candidate patient form payload (the fields validated by
`patientSchema`).  `allergies` and `medical_history` are
`z.string().max(...).optional()`; `EDD` is `z.string().nullable().optional()`
(both null and undefined are modelled as `none`). -/
structure PatientPayload where
  name : String
  age : String
  gender : String
  dateofbirth : String
  BloodGroup : String
  mobile : String
  address : String
  allergies : Option String
  medical_history : Option String
  isANC : String
  EDD : Option String
deriving DecidableEq

/-- Embedding of `patientSchema`.  Note that `isANC` is a bare
`z.string()` and `EDD` a bare `z.string().nullable().optional()`: the
schema constrains neither value, and in particular does not relate them,
so the function inspects neither field. -/
def patientSchema (p : PatientPayload) : Bool :=
  (decide (2 ≤ p.name.length) && decide (p.name.length ≤ 100))
  && decide (1 ≤ p.age.length)
  && decide (1 ≤ p.gender.length)
  && decide (1 ≤ p.dateofbirth.length)
  && decide (1 ≤ p.BloodGroup.length)
  && (decide (10 ≤ p.mobile.length) && decide (p.mobile.length ≤ 15))
  && (decide (5 ≤ p.address.length) && decide (p.address.length ≤ 255))
  && (match p.allergies with | some s => decide (s.length ≤ 500) | none => true)
  && (match p.medical_history with
      | some s => decide (s.length ≤ 1000)
      | none => true)

/-- The form default values of `PatientForm.tsx` (`defaultValues` of
`useForm`): every text field empty, `isANC = "No"`, `EDD = null`. -/
def defaultPatientFormValues : PatientPayload :=
  { name := "", age := "", gender := "", dateofbirth := "", BloodGroup := "",
    mobile := "", address := "", allergies := some "",
    medical_history := some "", isANC := "No", EDD := none }

/-- A fully valid patient payload that carries `isANC = "No"` together
with a non-null `EDD` (used to refute the claimed validator invariant). -/
def ancNoWithEDD : PatientPayload :=
  { name := "Ramesh Kumar", age := "35", gender := "Male",
    dateofbirth := "1990-05-15", BloodGroup := "B+",
    mobile := "9876543210", address := "12, Main Street, Chennai",
    allergies := some "None", medical_history := some "Diabetes",
    isANC := "No", EDD := some "2025-03-15" }

/-! ## Appointments page data and search fallback (the Appointments page
component: `mockAppointments`, `handleSearch`) -/

/-- An appointment record, following the `Appointment` interface of the
types module (`patient_name`, `doctor_name` and `status` are optional). -/
structure Appointment where
  id : Nat
  patient_id : Nat
  patient_name : Option String
  doctor_name : Option String
  appointment_date : String
  appointment_time : String
  reason : String
  status : Option String
deriving DecidableEq

/-- The fixed local sample set of the Appointments page
(`mockAppointments`). -/
def mockAppointments : List Appointment :=
  [ { id := 1, patient_id := 1, patient_name := some "Ramesh Kumar",
      doctor_name := some "Dr. Sarah Johnson",
      appointment_date := "2025-12-05", appointment_time := "10:00",
      reason := "General Checkup", status := some "Scheduled" },
    { id := 2, patient_id := 2, patient_name := some "Priya Sharma",
      doctor_name := some "Dr. Emily Williams",
      appointment_date := "2025-12-05", appointment_time := "11:30",
      reason := "Prenatal Checkup", status := some "Scheduled" },
    { id := 3, patient_id := 3, patient_name := some "Suresh Patel",
      doctor_name := some "Dr. Michael Chen",
      appointment_date := "2025-12-04", appointment_time := "14:00",
      reason := "Blood Pressure Follow-up", status := some "Completed" },
    { id := 4, patient_id := 4, patient_name := some "Lakshmi Iyer",
      doctor_name := some "Dr. James Brown",
      appointment_date := "2025-12-03", appointment_time := "09:30",
      reason := "Joint Pain Consultation", status := some "Completed" },
    { id := 5, patient_id := 5, patient_name := some "Arun Reddy",
      doctor_name := some "Dr. Sarah Johnson",
      appointment_date := "2025-12-06", appointment_time := "15:00",
      reason := "Asthma Review", status := some "Scheduled" } ]

/-- JavaScript `String.prototype.toLowerCase` (character-wise lowering;
the sample data is ASCII, for which this is exact). -/
def strToLower (s : String) : String :=
  String.mk (s.toList.map Char.toLower)

/-- JavaScript `String.prototype.trim`: strip whitespace from both
ends. -/
def strTrim (s : String) : String :=
  String.mk
    (((s.toList.dropWhile Char.isWhitespace).reverse.dropWhile
        Char.isWhitespace).reverse)

/-- JavaScript `String.prototype.includes`: contiguous substring
containment. -/
def strIncludes (s sub : String) : Bool :=
  decide (sub.toList <:+: s.toList)

/-- The name predicate of the Appointments search fallback:
`a.patient_name?.toLowerCase().includes(searchName.toLowerCase())`.
A missing `patient_name` makes the optional chain yield `undefined`,
which is falsy, so such a record is filtered out. -/
def nameMatches (a : Appointment) (q : String) : Bool :=
  match a.patient_name with
  | some n => strIncludes (strToLower n) (strToLower q)
  | none => false

/-- The `catch` branch of the Appointments page `handleSearch`: filter the
fixed sample set by a case-insensitive name substring (when `searchName`
is non-empty, i.e. truthy) and by exact date equality (when `searchDate`
is non-empty).  The code never consults `searchPhone` in this branch. -/
def appointmentsSearchFallback
    (searchName searchPhone searchDate : String) : List Appointment :=
  let f1 :=
    if searchName ≠ "" then
      mockAppointments.filter (fun a => nameMatches a searchName)
    else mockAppointments
  if searchDate ≠ "" then
    f1.filter (fun a => a.appointment_date == searchDate)
  else f1

/-! ## Patients page data and search fallback (the Patients page
component: `mockPatients`, `handleSearch`) -/

/-- A patient record, following the `Patient` interface of the types
module. -/
structure Patient where
  id : Nat
  name : String
  age : String
  gender : String
  dateofbirth : String
  BloodGroup : String
  mobile : String
  address : String
  allergies : String
  medical_history : String
  isANC : String
  EDD : Option String
deriving DecidableEq

/-- The fixed local sample set of the Patients page (`mockPatients`). -/
def mockPatients : List Patient :=
  [ { id := 1, name := "Ramesh Kumar", age := "35", gender := "Male",
      dateofbirth := "1990-05-15", BloodGroup := "B+",
      mobile := "9876543210", address := "12, Main Street, Chennai",
      allergies := "None", medical_history := "Diabetes",
      isANC := "No", EDD := none },
    { id := 2, name := "Priya Sharma", age := "28", gender := "Female",
      dateofbirth := "1996-08-20", BloodGroup := "A+",
      mobile := "9876543211", address := "45, Park Avenue, Mumbai",
      allergies := "Penicillin", medical_history := "None",
      isANC := "Yes", EDD := some "2025-03-15" },
    { id := 3, name := "Suresh Patel", age := "42", gender := "Male",
      dateofbirth := "1982-12-10", BloodGroup := "O+",
      mobile := "9876543212", address := "78, Lake Road, Bangalore",
      allergies := "None", medical_history := "Hypertension",
      isANC := "No", EDD := none },
    { id := 4, name := "Lakshmi Iyer", age := "55", gender := "Female",
      dateofbirth := "1969-03-25", BloodGroup := "AB+",
      mobile := "9876543213", address := "23, Temple Street, Chennai",
      allergies := "Aspirin", medical_history := "Arthritis, Diabetes",
      isANC := "No", EDD := none },
    { id := 5, name := "Arun Reddy", age := "31", gender := "Male",
      dateofbirth := "1993-07-08", BloodGroup := "B-",
      mobile := "9876543214", address := "56, Hill View, Hyderabad",
      allergies := "None", medical_history := "Asthma",
      isANC := "No", EDD := none } ]

/-- The `catch` branch of the Patients page `handleSearch`: one query is
matched as a case-insensitive substring of the name or a raw substring of
the mobile number. -/
def patientsSearchFallback (query : String) : List Patient :=
  mockPatients.filter (fun p =>
    strIncludes (strToLower p.name) (strToLower query) || strIncludes p.mobile query)

/-! ## Update payload of the two service variants
(`src/services/api.ts` and the localhost variant, `updateAppointment`) -/

/-- A JSON scalar as it appears in the serialised request bodies. -/
inductive JsonValue
  | str (s : String)
  | num (n : Int)
deriving DecidableEq

/-- The appointment form data handed to `updateAppointment`
(`AppointmentFormData` plus the `doctor_id` the richer form variant adds;
`doctor_id` and `status` may be `undefined`, which `JSON.stringify`
omits). -/
structure AppointmentFormData where
  patient_id : Int
  doctor_id : Option Int
  appointment_date : String
  appointment_time : String
  reason : String
  status : Option String
deriving DecidableEq

/-- `JSON.stringify(data)` on a whole `AppointmentFormData`, as the list
of serialised key/value pairs (`undefined` members are omitted). -/
def stringifyFormData (d : AppointmentFormData) : List (String × JsonValue) :=
  [("patient_id", JsonValue.num d.patient_id)]
  ++ (match d.doctor_id with
      | some v => [("doctor_id", JsonValue.num v)]
      | none => [])
  ++ [("appointment_date", JsonValue.str d.appointment_date),
      ("appointment_time", JsonValue.str d.appointment_time),
      ("reason", JsonValue.str d.reason)]
  ++ (match d.status with
      | some s => [("status", JsonValue.str s)]
      | none => [])

/-- The body transmitted by `updateAppointment` in `src/services/api.ts`:
`JSON.stringify(data)` of the whole form payload. -/
def updateAppointmentBodyApi (d : AppointmentFormData) :
    List (String × JsonValue) :=
  stringifyFormData d

/-- The body transmitted by `updateAppointment` in the localhost service
variant: an `updatePayload` object holding only `appointment_date`,
`appointment_time`, `reason` and `status` (the latter omitted by
`JSON.stringify` when `undefined`). -/
def updateAppointmentBodyLocal (d : AppointmentFormData) :
    List (String × JsonValue) :=
  [("appointment_date", JsonValue.str d.appointment_date),
   ("appointment_time", JsonValue.str d.appointment_time),
   ("reason", JsonValue.str d.reason)]
  ++ (match d.status with
      | some s => [("status", JsonValue.str s)]
      | none => [])

/-! ## Fetch wrapper error messages (`fetchApi` of the two service
variants) -/

/-- Outcome of reading a non-2xx response body: the body either fails to
parse as JSON, or parses to an object whose `message` field is a string
or absent. -/
inductive ErrorBody
  | unparseable
  | parsed (message : Option String)
deriving DecidableEq

/-- The generic fallback message `` `HTTP error! status: N` ``. -/
def genericHttpMessage (status : Nat) : String :=
  "HTTP error! status: " ++ toString status

/-- Error message thrown by `fetchApi` in `src/services/api.ts`:
`response.json().catch(() => ({ message: 'An error occurred' }))` followed
by `new Error(error.message || genericHttpMessage)`.  A JS `||` falls
through on the falsy values `undefined` and `""`. -/
def fetchApiErrorMessageApi (status : Nat) (body : ErrorBody) : String :=
  let message : Option String :=
    match body with
    | ErrorBody.unparseable => some "An error occurred"
    | ErrorBody.parsed m => m
  match message with
  | some m => if m = "" then genericHttpMessage status else m
  | none => genericHttpMessage status

/-- Error message thrown by `fetchApi` in the localhost service variant:
the body text is read, `errorMessage` starts as the generic message, and a
successful `JSON.parse` replaces it with `errorJson.message ||
errorMessage`. -/
def fetchApiErrorMessageLocal (status : Nat) (body : ErrorBody) : String :=
  let errorMessage := genericHttpMessage status
  match body with
  | ErrorBody.unparseable => errorMessage
  | ErrorBody.parsed none => errorMessage
  | ErrorBody.parsed (some m) => if m = "" then errorMessage else m

/-! ## Page state transitions (Appointments / Patients page components) -/

/-- Outcome of an asynchronous store call that returns data. -/
inductive StoreResult (α : Type)
  | ok (data : α)
  | err

/-- The Appointments page state touched by the handlers modelled here. -/
structure AppointmentsPageState where
  appointments : List Appointment
  currentPage : Nat
  deleteDialogOpen : Bool
  appointmentToDelete : Option Appointment
  lastToast : Option String

/-- `fetchAppointments`: `getAllAppointments()` on success, the fixed
sample set on transport failure. -/
def fetchAppointmentsResult (remote : StoreResult (List Appointment)) :
    List Appointment :=
  match remote with
  | StoreResult.ok data => data
  | StoreResult.err => mockAppointments

/-- The Appointments page `handleSearch`: the current page is reset to 1
first; with every criterion empty (falsy) the full collection is reloaded
via `fetchAppointments` and no search request is issued; otherwise the
remote search result is stored, falling back to
`appointmentsSearchFallback` when the remote call fails. -/
def handleSearchAppointments (searchName searchPhone searchDate : String)
    (searchRemote listRemote : StoreResult (List Appointment))
    (st : AppointmentsPageState) : AppointmentsPageState :=
  let st1 := { st with currentPage := 1 }
  if searchName = "" ∧ searchPhone = "" ∧ searchDate = "" then
    { st1 with appointments := fetchAppointmentsResult listRemote }
  else
    match searchRemote with
    | StoreResult.ok data => { st1 with appointments := data }
    | StoreResult.err =>
        { st1 with appointments :=
            appointmentsSearchFallback searchName searchPhone searchDate }

/-- The Patients page state touched by the handlers modelled here. -/
structure PatientsPageState where
  patients : List Patient
  searchQuery : String
  currentPage : Nat

/-- `fetchPatients`: `getAllPatients()` on success (the component merely
aliases `patient_id` to `id`, which the record type already fixes), the
fixed sample set on transport failure. -/
def fetchPatientsResult (remote : StoreResult (List Patient)) :
    List Patient :=
  match remote with
  | StoreResult.ok data => data
  | StoreResult.err => mockPatients

/-- The Patients page `handleSearch(query)`: stores the query, resets the
current page to 1, reloads the full collection when the trimmed query is
empty, and otherwise stores the remote search result, falling back to
`patientsSearchFallback`. -/
def handleSearchPatients (query : String)
    (searchRemote listRemote : StoreResult (List Patient))
    (st : PatientsPageState) : PatientsPageState :=
  let st1 := { st with searchQuery := query, currentPage := 1 }
  if strTrim query = "" then
    { st1 with patients := fetchPatientsResult listRemote }
  else
    match searchRemote with
    | StoreResult.ok data => { st1 with patients := data }
    | StoreResult.err => { st1 with patients := patientsSearchFallback query }

/-- Outcome of the `deleteAppointment` store call. -/
inductive DeleteCallResult
  | ok
  | err

/-- The Appointments page `handleDeleteAppointment`: with no target it
returns immediately; on store success it reports success, closes the
dialog, clears the target and reloads the collection; on store failure
(the `catch` branch) it reports the same success toast and closes the
dialog but performs no reload, leaving the collection untouched. -/
def handleDeleteAppointment (res : DeleteCallResult)
    (listRemote : StoreResult (List Appointment))
    (st : AppointmentsPageState) : AppointmentsPageState :=
  match st.appointmentToDelete with
  | none => st
  | some _ =>
    match res with
    | DeleteCallResult.ok =>
        { st with
          appointments := fetchAppointmentsResult listRemote,
          deleteDialogOpen := false,
          appointmentToDelete := none,
          lastToast := some "Appointment cancelled successfully" }
    | DeleteCallResult.err =>
        { st with
          deleteDialogOpen := false,
          appointmentToDelete := none,
          lastToast := some "Appointment cancelled successfully" }

/-! ## Theorems -/

/-- C1: `generateTimeSlots` deterministically returns an ordered sequence of
exactly 109 zero-padded 24-hour `"HH:MM"` strings, first `"09:00"`, last
`"18:00"`, in which every consecutive pair differs by exactly 5 minutes
(hence the sequence is strictly increasing), and no element denotes a time
after 18:00. -/
theorem generateTimeSlots_spec :
    generateTimeSlots.length = 109
    ∧ generateTimeSlots.head? = some "09:00"
    ∧ generateTimeSlots.getLast? = some "18:00"
    ∧ (∀ p ∈ generateTimeSlots.zip generateTimeSlots.tail,
        slotToMinutes p.2 = slotToMinutes p.1 + 5)
    ∧ List.Pairwise (fun a b => slotToMinutes a < slotToMinutes b) generateTimeSlots
    ∧ (∀ s ∈ generateTimeSlots, slotToMinutes s ≤ 18 * 60) := by
  refine ⟨by decide, by decide, by decide, by decide, by decide, by decide⟩

/-- Helper: `totalPages` is the rational ceiling of `n / 50`. -/
theorem totalPages_eq_ceil (n : Nat) : (totalPages n : ℤ) = ⌈(n : ℚ) / 50⌉ := by
  have h := Nat.div_add_mod (n + 49) 50
  have hlt : (n + 49) % 50 < 50 := Nat.mod_lt _ (by norm_num)
  set q := (n + 49) / 50 with hq
  have hq2 : totalPages n = q := by unfold totalPages ITEMS_PER_PAGE; omega
  rw [hq2]
  have h1 : n ≤ 50 * q := by omega
  have h2 : 50 * q < n + 50 := by omega
  symm
  rw [Int.ceil_eq_iff]
  constructor
  · rw [lt_div_iff₀ (by norm_num : (0 : ℚ) < 50)]
    push_cast
    have : (50 : ℚ) * q < n + 50 := by exact_mod_cast h2
    linarith
  · rw [div_le_iff₀ (by norm_num : (0 : ℚ) < 50)]
    push_cast
    have : (n : ℚ) ≤ 50 * q := by exact_mod_cast h1
    linarith

/-- Helper: the element of the visible page window at offset `i` is the
collection element at absolute index `(p - 1) * 50 + i`, as long as that
index falls in `[(p-1)*50, min (p*50) l.length)`; past the window it is
`none`. -/
theorem paginate_get (l : List Nat) (p : Nat) (hp : 1 ≤ p) (i : Nat) :
    (paginate l p).get? i =
      if (p - 1) * 50 + i < min (p * 50) l.length ∧ i < 50 then
        l.get? ((p - 1) * 50 + i)
      else none := by
  unfold paginate ITEMS_PER_PAGE
  by_cases hi : i < 50
  · rw [List.get?_take hi, List.get?_drop]
    by_cases hlen : (p - 1) * 50 + i < l.length
    · rw [if_pos (by omega)]
    · rw [if_neg (by omega), List.get?_eq_none]
      omega
  · rw [if_neg (by omega), List.get?_eq_none]
    have := List.length_take 50 (l.drop ((p - 1) * 50))
    omega

/-- C2: the pagination of the Appointments page (`paginatedAppointments`)
and the Patients page (`paginatedPatients`) is pure slicing with fixed page
size 50: the window of page `p ≥ 1` consists of the collection elements at
indices `[(p-1)*50, min (p*50) n)`, the page count is `⌈n / 50⌉`, a page
beyond range yields the empty window, and for `n = 120`: page 1 is items
`[0, 50)`, page 3 is the 20 items `[100, 120)`, page 4 is empty, and the
page count is 3. -/
theorem paginate_spec (l : List Nat) (p : Nat) (hp : 1 ≤ p) :
    (paginate l p).length = min (p * 50) l.length - (p - 1) * 50
    ∧ (∀ i, (paginate l p).get? i =
        if (p - 1) * 50 + i < min (p * 50) l.length ∧ i < 50 then
          l.get? ((p - 1) * 50 + i)
        else none)
    ∧ (totalPages l.length : ℤ) = ⌈(l.length : ℚ) / 50⌉
    ∧ (l.length ≤ (p - 1) * 50 → paginate l p = [])
    ∧ paginate (List.range 120) 1 = List.range 50
    ∧ paginate (List.range 120) 3 = (List.range 20).map (fun i => i + 100)
    ∧ paginate (List.range 120) 4 = []
    ∧ totalPages 120 = 3 := by
  refine ⟨?_, fun i => paginate_get l p hp i, totalPages_eq_ceil l.length, ?_,
    by decide, by decide, by decide, by decide⟩
  · unfold paginate ITEMS_PER_PAGE
    rw [List.length_take, List.length_drop]
    omega
  · intro h
    unfold paginate ITEMS_PER_PAGE
    rw [List.drop_eq_nil_of_le h, List.take_nil]

/-- Witness for C2 at the concrete 120-item collection `List.range 120`
and page 4 (a page beyond range). -/
theorem paginate_spec_witness :
    paginate (List.range 120) 4 = [] ∧ totalPages 120 = 3 := by
  have h := paginate_spec (List.range 120) 4 (by norm_num)
  exact ⟨h.2.2.2.2.2.2.1, h.2.2.2.2.2.2.2⟩

/-- C3 counterexample: a payload carrying the status `"Bogus"`, which is
not one of the four enum values, is nevertheless accepted by
`appointmentSchema` — the validator does not reject out-of-enum statuses. -/
theorem appointmentSchema_status_counterexample :
    appointmentSchema
      { patient_id := 1, doctor_id := 2, appointment_date := "2025-12-10",
        appointment_time := "10:00", reason := "Checkup",
        status := some "Bogus" } = true
    ∧ "Bogus" ∉ statuses := by decide

/-- C3 (amended): the appointment validator does not check `status` at all:
an accepted payload remains accepted when its status is replaced by any
string outside the four-value enum.  The enum is enforced only by the UI
select options (`statuses`), not by the validation schema. -/
theorem appointmentSchema_status_ignored (p : AppointmentPayload) (s : String)
    (hs : s ∉ statuses) (hp : appointmentSchema p = true) :
    appointmentSchema { p with status := some s } = true := hp

/-- Witness for the amended C3 at a concrete payload and the out-of-enum
status `"Nonsense"`. -/
theorem appointmentSchema_status_ignored_witness :
    appointmentSchema
      { patient_id := 1, doctor_id := 2, appointment_date := "2025-12-10",
        appointment_time := "10:00", reason := "Checkup",
        status := some "Nonsense" } = true :=
  appointmentSchema_status_ignored
    { patient_id := 1, doctor_id := 2, appointment_date := "2025-12-10",
      appointment_time := "10:00", reason := "Checkup", status := none }
    "Nonsense" (by decide) (by decide)

/-- C4: whenever the other fields satisfy their own rules, the validator
accepts a payload exactly when `patient_id ≥ 1` and the reason length lies
in `[3, 500]`; in particular `patient_id = 1` is accepted, `patient_id ≤ 0`
is rejected, a reason of length 2 or 501 is rejected and one of length 3
(up to 500) is accepted. -/
theorem appointmentSchema_bounds (p : AppointmentPayload)
    (hdoc : 1 ≤ p.doctor_id)
    (hdate : 1 ≤ p.appointment_date.length)
    (htime : 1 ≤ p.appointment_time.length) :
    appointmentSchema p = true ↔
      1 ≤ p.patient_id ∧ 3 ≤ p.reason.length ∧ p.reason.length ≤ 500 := by
  simp [appointmentSchema, hdoc, hdate, htime]

/-- Witness for C4: the validating payload with `patient_id = 1` and a
3-character reason is accepted; the same payload with `patient_id = 0` is
rejected. -/
theorem appointmentSchema_bounds_witness :
    appointmentSchema
      { patient_id := 1, doctor_id := 2, appointment_date := "2025-12-10",
        appointment_time := "10:00", reason := "abc",
        status := some "Scheduled" } = true
    ∧ appointmentSchema
      { patient_id := 0, doctor_id := 2, appointment_date := "2025-12-10",
        appointment_time := "10:00", reason := "abc",
        status := some "Scheduled" } = false := by
  constructor
  · exact (appointmentSchema_bounds _ (by decide) (by decide) (by decide)).mpr
      (by decide)
  · have h := appointmentSchema_bounds
      { patient_id := 0, doctor_id := 2, appointment_date := "2025-12-10",
        appointment_time := "10:00", reason := "abc",
        status := some "Scheduled" } (by decide) (by decide) (by decide)
    rcases Bool.eq_false_or_eq_true (appointmentSchema
      { patient_id := 0, doctor_id := 2, appointment_date := "2025-12-10",
        appointment_time := "10:00", reason := "abc",
        status := some "Scheduled" }) with hb | hb
    · exact absurd (h.mp hb).1 (by decide)
    · exact hb

/-- C7 counterexample: `patientSchema` accepts the payload `ancNoWithEDD`,
which has `isANC = "No"` and a non-null `EDD` — the client validator does
not make the combination impossible, nor does it normalise `EDD` to
null. -/
theorem patientSchema_anc_counterexample :
    patientSchema ancNoWithEDD = true
    ∧ ancNoWithEDD.isANC = "No"
    ∧ ancNoWithEDD.EDD ≠ none := by decide

/-- C7 (amended): the patient validator does not enforce the
`isANC`/`EDD` invariant — its verdict is entirely independent of the `EDD`
value — so an accepted payload may have `isANC = "No"` and a non-null
`EDD`.  The invariant does hold of the form's initial state
(`isANC = "No"`, `EDD = null` in `defaultValues`) and is otherwise only
encouraged by the UI hiding the EDD input unless `isANC = "Yes"`. -/
theorem patientSchema_EDD_independent (p : PatientPayload) (e : Option String) :
    patientSchema { p with EDD := e } = patientSchema p
    ∧ defaultPatientFormValues.isANC = "No"
    ∧ defaultPatientFormValues.EDD = none :=
  ⟨rfl, rfl, rfl⟩

/-- C5 counterexample: giving only a phone criterion to the Appointments
search fallback returns all five sample entries — the fallback never
consults the phone criterion (the `Appointment` sample records do not even
carry a phone field), so the result is not "exactly those entries matching
all given criteria". -/
theorem appointmentsSearchFallback_counterexample :
    appointmentsSearchFallback "" "0000000" "" = mockAppointments
    ∧ mockAppointments.length = 5 := by decide

/-- C5 (amended): the Appointments search fallback narrows the fixed
sample set by case-insensitive substring match on `patient_name` and exact
match on `appointment_date` only; the phone criterion is ignored (the
result is the same for any two phone values).  An entry is returned
exactly when it matches every given name/date criterion; in particular
searching `name = "ramesh"` (in any case) returns exactly the Ramesh Kumar
entry and `date = "2025-12-05"` returns exactly the two entries of that
date. -/
theorem appointmentsSearchFallback_spec (sn sp sq sd : String)
    (a : Appointment) :
    appointmentsSearchFallback sn sp sd = appointmentsSearchFallback sn sq sd
    ∧ (a ∈ appointmentsSearchFallback sn sp sd ↔
        a ∈ mockAppointments
        ∧ (sn ≠ "" → nameMatches a sn = true)
        ∧ (sd ≠ "" → a.appointment_date = sd))
    ∧ appointmentsSearchFallback "ramesh" "" "" = mockAppointments.take 1
    ∧ appointmentsSearchFallback "RAMESH" "" "" = mockAppointments.take 1
    ∧ appointmentsSearchFallback "" "" "2025-12-05" = mockAppointments.take 2 := by
  refine ⟨rfl, ?_, by decide, by decide, by decide⟩
  unfold appointmentsSearchFallback
  by_cases hn : sn = "" <;> by_cases hd : sd = "" <;>
    simp [hn, hd, List.mem_filter] <;> tauto

/-- Witness for the amended C5 at the concrete criteria of the spec's
example (phone given as `"123"` or `"456"`, which cannot change the
result). -/
theorem appointmentsSearchFallback_spec_witness :
    appointmentsSearchFallback "ramesh" "123" ""
      = appointmentsSearchFallback "ramesh" "456" ""
    ∧ appointmentsSearchFallback "" "" "2025-12-05" = mockAppointments.take 2 := by
  have h := appointmentsSearchFallback_spec "ramesh" "123" "456" ""
    { id := 1, patient_id := 1, patient_name := some "Ramesh Kumar",
      doctor_name := some "Dr. Sarah Johnson",
      appointment_date := "2025-12-05", appointment_time := "10:00",
      reason := "General Checkup", status := some "Scheduled" }
  exact ⟨h.1, h.2.2.2.2⟩

/-- C6 counterexample: the `src/services/api.ts` variant of
`updateAppointment` serialises the whole form payload, so the transmitted
body does contain a `patient_id` member — `patient_id` is not "never
transmitted on update". -/
theorem updateAppointmentBody_counterexample :
    "patient_id" ∈ (updateAppointmentBodyApi
      { patient_id := 7, doctor_id := none, appointment_date := "2025-12-10",
        appointment_time := "10:00", reason := "Checkup",
        status := some "Scheduled" }).map Prod.fst := by decide

/-- C6 (amended): only the localhost service variant of
`updateAppointment` restricts the transmitted body to the mutable subset:
its keys are exactly `appointment_date`, `appointment_time`, `reason` and
(when the form carries one) `status`, and never `patient_id` or
`doctor_id`.  The `src/services/api.ts` variant instead transmits the full
form payload, `patient_id` included. -/
theorem updateAppointmentBodyLocal_spec (d : AppointmentFormData) :
    (updateAppointmentBodyLocal d).map Prod.fst
      = ["appointment_date", "appointment_time", "reason"]
        ++ (match d.status with | some _ => ["status"] | none => [])
    ∧ "patient_id" ∉ (updateAppointmentBodyLocal d).map Prod.fst
    ∧ "doctor_id" ∉ (updateAppointmentBodyLocal d).map Prod.fst
    ∧ "patient_id" ∈ (updateAppointmentBodyApi d).map Prod.fst := by
  rcases d with ⟨pid, did, date, time, reason, status⟩
  cases status <;> cases did <;>
    simp [updateAppointmentBodyLocal, updateAppointmentBodyApi,
      stringifyFormData]

/-- C8 counterexample: in the `src/services/api.ts` variant, a non-2xx
response whose body is not parseable JSON produces the fixed message
`"An error occurred"`, not the generic `"HTTP error! status: N"` message
the claim prescribes for that case. -/
theorem fetchApiErrorMessage_counterexample :
    fetchApiErrorMessageApi 500 ErrorBody.unparseable = "An error occurred"
    ∧ fetchApiErrorMessageApi 500 ErrorBody.unparseable
        ≠ genericHttpMessage 500 := by decide

/-- C8 (amended): both fetch-wrapper variants throw the body's `message`
field whenever it is present, parseable and non-empty.  When the body is
absent, unparseable or lacks a usable `message`, the localhost variant
throws the generic `"HTTP error! status: N"` message; the
`src/services/api.ts` variant throws the generic message only when the
body parses without a usable `message` field, and throws the fixed
`"An error occurred"` when the body is unparseable. -/
theorem fetchApiErrorMessage_spec (status : Nat) (m : String) (hm : m ≠ "") :
    fetchApiErrorMessageApi status (ErrorBody.parsed (some m)) = m
    ∧ fetchApiErrorMessageLocal status (ErrorBody.parsed (some m)) = m
    ∧ fetchApiErrorMessageLocal status ErrorBody.unparseable
        = genericHttpMessage status
    ∧ fetchApiErrorMessageLocal status (ErrorBody.parsed none)
        = genericHttpMessage status
    ∧ fetchApiErrorMessageApi status (ErrorBody.parsed none)
        = genericHttpMessage status
    ∧ fetchApiErrorMessageApi status ErrorBody.unparseable
        = "An error occurred" := by
  refine ⟨?_, ?_, rfl, rfl, rfl, rfl⟩ <;>
    simp [fetchApiErrorMessageApi, fetchApiErrorMessageLocal, hm]

/-- Witness for the amended C8 at status 404 and the message
`"Not found"`. -/
theorem fetchApiErrorMessage_spec_witness :
    fetchApiErrorMessageApi 404 (ErrorBody.parsed (some "Not found"))
      = "Not found"
    ∧ fetchApiErrorMessageLocal 404 ErrorBody.unparseable
      = genericHttpMessage 404 := by
  have h := fetchApiErrorMessage_spec 404 "Not found" (by decide)
  exact ⟨h.1, h.2.2.1⟩

/-- C9: both page search handlers reset the current page to 1 on every
invocation (regardless of criteria or store outcome), reload the full
collection when every criterion is empty, and consequently the displayed
window after a search is the page-1 window of the resulting collection. -/
theorem handleSearch_resets_page (sn sp sd : String)
    (sr lr : StoreResult (List Appointment)) (st : AppointmentsPageState)
    (q : String) (psr plr : StoreResult (List Patient))
    (pst : PatientsPageState) :
    (handleSearchAppointments sn sp sd sr lr st).currentPage = 1
    ∧ (handleSearchAppointments "" "" "" sr lr st).appointments
        = fetchAppointmentsResult lr
    ∧ paginate (handleSearchAppointments sn sp sd sr lr st).appointments
        (handleSearchAppointments sn sp sd sr lr st).currentPage
      = paginate (handleSearchAppointments sn sp sd sr lr st).appointments 1
    ∧ (handleSearchPatients q psr plr pst).currentPage = 1
    ∧ (handleSearchPatients "" psr plr pst).patients
        = fetchPatientsResult plr := by
  have h1 : (handleSearchAppointments sn sp sd sr lr st).currentPage = 1 := by
    unfold handleSearchAppointments
    split
    · rfl
    · cases sr <;> rfl
  have h4 : (handleSearchPatients q psr plr pst).currentPage = 1 := by
    unfold handleSearchPatients
    split
    · rfl
    · cases psr <;> rfl
  refine ⟨h1, rfl, by rw [h1], h4, rfl⟩

/-- C10: with a delete target selected, a failing `deleteAppointment`
store call still produces the success toast and closes the confirmation
dialog, but triggers no reload: the appointment collection is left exactly
as it was.  Only a successful store call reloads the collection. -/
theorem handleDeleteAppointment_spec (st : AppointmentsPageState)
    (a : Appointment) (lr : StoreResult (List Appointment))
    (h : st.appointmentToDelete = some a) :
    (handleDeleteAppointment DeleteCallResult.err lr st).lastToast
        = some "Appointment cancelled successfully"
    ∧ (handleDeleteAppointment DeleteCallResult.err lr st).deleteDialogOpen
        = false
    ∧ (handleDeleteAppointment DeleteCallResult.err lr st).appointments
        = st.appointments
    ∧ (handleDeleteAppointment DeleteCallResult.ok lr st).appointments
        = fetchAppointmentsResult lr := by
  unfold handleDeleteAppointment
  rw [h]
  exact ⟨rfl, rfl, rfl, rfl⟩

/-- Witness for C10: a concrete page state with the first sample
appointment selected for deletion and a failing store call — the
collection is untouched. -/
theorem handleDeleteAppointment_spec_witness :
    (handleDeleteAppointment DeleteCallResult.err StoreResult.err
      { appointments := mockAppointments, currentPage := 1,
        deleteDialogOpen := true,
        appointmentToDelete := some
          { id := 1, patient_id := 1, patient_name := some "Ramesh Kumar",
            doctor_name := some "Dr. Sarah Johnson",
            appointment_date := "2025-12-05", appointment_time := "10:00",
            reason := "General Checkup", status := some "Scheduled" },
        lastToast := none }).appointments = mockAppointments := by
  have h := handleDeleteAppointment_spec
    { appointments := mockAppointments, currentPage := 1,
      deleteDialogOpen := true,
      appointmentToDelete := some
        { id := 1, patient_id := 1, patient_name := some "Ramesh Kumar",
          doctor_name := some "Dr. Sarah Johnson",
          appointment_date := "2025-12-05", appointment_time := "10:00",
          reason := "General Checkup", status := some "Scheduled" },
      lastToast := none }
    { id := 1, patient_id := 1, patient_name := some "Ramesh Kumar",
      doctor_name := some "Dr. Sarah Johnson",
      appointment_date := "2025-12-05", appointment_time := "10:00",
      reason := "General Checkup", status := some "Scheduled" }
    StoreResult.err rfl
  exact h.2.2.1

end ClinicFlow
